import Mathlib

/-!
Verification of the pet state engine of `fishpi_pokemon`
(`src/pets/pets.service.ts` and the `Pet` schema).

Modelling conventions:
* JavaScript numbers that hold integral values (vitals, experience, level,
  battle counters) are embedded as `Int`.
* `Date` values are embedded as `Int` milliseconds since the epoch
  (`Date.getTime()`), and the service methods that call `new Date()`
  internally receive that instant as an explicit `now : Int` argument.
* The elapsed-hours arithmetic of `updatePetStatsOverTime`
  (`(now - last) / 3600000` followed by `Math.floor (· * rate)`) is
  embedded as exact rational arithmetic and then expressed with floored
  integer division: `Math.floor ((Δ / 3600000) * 2) = Int.fdiv (Δ * 2) 3600000`,
  `Math.floor ((Δ / 3600000) * 1.5) = Int.fdiv (Δ * 3) 7200000`,
  `Math.floor ((Δ / 3600000) * 1) = Int.fdiv Δ 3600000`
  (`Int.fdiv` rounds toward −∞, as `Math.floor` does).
* The Mongo collection backing the service is embedded as a `List Pet`;
  `findAll` returns the whole list and `updatePetStatsOverTime` writes the
  decayed record back for every pet it visited, i.e. it maps the per-pet
  decay step over `findAll`.
-/

/-- `PetStatus` enum of `pet.schema.ts`. -/
inductive PetStatus where
  | active
  | sleeping
  | sick
  | happy
  | hungry
  deriving DecidableEq, Repr

/-- `PetType` enum of `pet.schema.ts`: it declares exactly `FISH = "fish"`
and `CAT = "cat"`. -/
inductive PetType where
  | fish
  | cat
  deriving DecidableEq, Repr

/-- The string values of the `PetType` enum in declaration order, i.e.
`Object.values(PetType)`. -/
def petTypeValues : List String := ["fish", "cat"]

/-- `PetsService.getPetTypes`: returns `Object.values(PetType)`. -/
def getPetTypes : List String := petTypeValues

/-- The `@IsEnum(PetType)` validation of `CreatePetDto.type`: a string is
accepted as a pet type at creation iff it is one of the enum's values. -/
def isValidPetType (s : String) : Bool := petTypeValues.contains s

/-- The `Pet` schema of `pet.schema.ts` (plus the Mongo `_id`). -/
structure Pet where
  id : String
  name : String
  type : PetType
  userId : String
  level : Int
  experience : Int
  health : Int
  hunger : Int
  happiness : Int
  energy : Int
  status : PetStatus
  lastFed : Int
  lastPlayed : Int
  lastSlept : Int
  avatar : Option String
  battlesWon : Int
  battlesLost : Int
  is_active : Bool
  deriving DecidableEq, Repr

/-- `PetsService.calculatePetStatus`: the status classifier, an if/else
chain evaluated in source order. -/
def calculatePetStatus (hunger health energy happiness : Int) : PetStatus :=
  if health < 30 then PetStatus.sick
  else if energy < 20 then PetStatus.sleeping
  else if hunger < 30 then PetStatus.hungry
  else if happiness > 80 ∧ health > 80 ∧ energy > 60 then PetStatus.happy
  else PetStatus.active

/-- The status classifier as the spec states it (§4.1, priority list
1..5), written independently from the spec's words for comparison with
`calculatePetStatus`. -/
def specStatusClassifier (hunger health energy happiness : Int) : PetStatus :=
  if health < 30 then PetStatus.sick
  else if energy < 20 then PetStatus.sleeping
  else if hunger < 30 then PetStatus.hungry
  else if happiness > 80 ∧ health > 80 ∧ energy > 60 then PetStatus.happy
  else PetStatus.active

/-- `clamp(x, lo, hi)` as the spec writes it. -/
def clamp (x lo hi : Int) : Int := max lo (min hi x)

/-- `PetsService.feedPet`, the pure transition after the lookup: the
fields written by its `this.update(id, {...})` call, all other fields of
the stored record unchanged. -/
def feedPet (pet : Pet) (now : Int) : Pet :=
  let newHunger := min 100 (pet.hunger + 30)
  let newHappiness := min 100 (pet.happiness + 10)
  let newExperience := pet.experience + 10
  let newLevel := Int.fdiv newExperience 100 + 1
  let newStatus := calculatePetStatus newHunger pet.health pet.energy newHappiness
  { pet with
      hunger := newHunger
      happiness := newHappiness
      experience := newExperience
      level := newLevel
      status := newStatus
      lastFed := now }

/-- `PetsService.playWithPet`, the pure transition after the lookup. -/
def playWithPet (pet : Pet) (now : Int) : Pet :=
  let newHappiness := min 100 (pet.happiness + 25)
  let newEnergy := max 0 (pet.energy - 20)
  let newHunger := max 0 (pet.hunger - 15)
  let newExperience := pet.experience + 15
  let newLevel := Int.fdiv newExperience 100 + 1
  let newStatus := calculatePetStatus newHunger pet.health newEnergy newHappiness
  { pet with
      happiness := newHappiness
      energy := newEnergy
      hunger := newHunger
      experience := newExperience
      level := newLevel
      status := newStatus
      lastPlayed := now }

/-- `PetsService.sleepPet`, the pure transition after the lookup. Its
status is the two-way conditional of the source, not the classifier. -/
def sleepPet (pet : Pet) (now : Int) : Pet :=
  let newEnergy := min 100 (pet.energy + 40)
  let newHealth := min 100 (pet.health + 10)
  let newStatus := if newEnergy > 80 then PetStatus.active else PetStatus.sleeping
  { pet with
      energy := newEnergy
      health := newHealth
      status := newStatus
      lastSlept := now }

/-- `PetsService.healPet`, the pure transition after the lookup. It
writes no timestamp, so `now` is unused. -/
def healPet (pet : Pet) (_now : Int) : Pet :=
  let newHealth := min 100 (pet.health + 30)
  let newStatus := calculatePetStatus pet.hunger newHealth pet.energy pet.happiness
  { pet with
      health := newHealth
      status := newStatus }

/-- The loop body of `PetsService.updatePetStatsOverTime` for one pet:
time-driven decay of hunger, happiness and energy from the pet's own
last-action timestamps, status recomputed by the classifier. -/
def decayPet (pet : Pet) (now : Int) : Pet :=
  let newHunger := max 0 (pet.hunger - Int.fdiv ((now - pet.lastFed) * 2) 3600000)
  let newHappiness := max 0 (pet.happiness - Int.fdiv ((now - pet.lastPlayed) * 3) 7200000)
  let newEnergy := max 0 (pet.energy - Int.fdiv (now - pet.lastSlept) 3600000)
  let newStatus := calculatePetStatus newHunger pet.health newEnergy newHappiness
  { pet with
      hunger := newHunger
      happiness := newHappiness
      energy := newEnergy
      status := newStatus }

/-- `PetsService.findAll`: `petModel.find()` with no filter. -/
def findAll (store : List Pet) : List Pet := store

/-- `PetsService.findByUserId`: `petModel.find({ userId, is_active: true })`. -/
def findByUserId (store : List Pet) (userId : String) : List Pet :=
  store.filter (fun p => p.userId == userId && p.is_active)

/-- `PetsService.updatePetStatsOverTime`: iterates over `findAll` and
writes the decayed fields back for each pet, so the store afterwards is
the per-pet decay mapped over every record. -/
def updatePetStatsOverTime (store : List Pet) (now : Int) : List Pet :=
  (findAll store).map (fun pet => decayPet pet now)

/-- The four vital attributes all lie in `[0, 100]`. -/
def vitalsInRange (p : Pet) : Prop :=
  0 ≤ p.health ∧ p.health ≤ 100 ∧
  0 ≤ p.hunger ∧ p.hunger ≤ 100 ∧
  0 ≤ p.happiness ∧ p.happiness ≤ 100 ∧
  0 ≤ p.energy ∧ p.energy ≤ 100

instance (p : Pet) : Decidable (vitalsInRange p) := by
  unfold vitalsInRange; infer_instance

/-- The four vital attributes are all nonnegative. -/
def nonnegVitals (p : Pet) : Prop :=
  0 ≤ p.health ∧ 0 ≤ p.hunger ∧ 0 ≤ p.happiness ∧ 0 ≤ p.energy

instance (p : Pet) : Decidable (nonnegVitals p) := by
  unfold nonnegVitals; infer_instance

/-- The level field is the value derived from experience. -/
def levelInvariant (p : Pet) : Prop :=
  p.level = Int.fdiv p.experience 100 + 1

instance (p : Pet) : Decidable (levelInvariant p) := by
  unfold levelInvariant; infer_instance

/-- One decay step keeps every vital nonnegative (health is untouched,
the other three are `max 0` of something). -/
theorem decayPet_nonneg (p : Pet) (t : Int) (h : 0 ≤ p.health) :
    nonnegVitals (decayPet p t) := by
  refine ⟨h, ?_, ?_, ?_⟩ <;> exact le_max_left 0 _

/-- Any sequence of decay steps keeps every vital nonnegative. -/
theorem decayPet_foldl_nonneg (p : Pet) (ns : List Int) (h : nonnegVitals p) :
    nonnegVitals (ns.foldl decayPet p) := by
  induction ns generalizing p with
  | nil => exact h
  | cons t ts ih => exact ih (decayPet p t) (decayPet_nonneg p t h.1)

/-- A pet record with the schema's creation defaults (vitals 100,
level 1, experience 0, active) and all timestamps at the epoch. -/
def basePet : Pet :=
  { id := "p0"
    name := "Momo"
    type := PetType.cat
    userId := "u0"
    level := 1
    experience := 0
    health := 100
    hunger := 100
    happiness := 100
    energy := 100
    status := PetStatus.active
    lastFed := 0
    lastPlayed := 0
    lastSlept := 0
    avatar := none
    battlesWon := 0
    battlesLost := 0
    is_active := true }

/-- A pet whose last-action timestamps sit one hour after the epoch, so
that at `now = 0` they lie in the future. -/
def futureFedPet : Pet :=
  { basePet with lastFed := 3600000, lastPlayed := 3600000, lastSlept := 3600000 }

/-- The spec's feed example pet: hunger 50, happiness 50, experience 95. -/
def feedExamplePet : Pet :=
  { basePet with hunger := 50, happiness := 50, experience := 95 }

/-- The spec's sleep example pet: energy 50, health 50, with low hunger
and happiness that would otherwise classify as hungry. -/
def sleepExamplePet : Pet :=
  { basePet with energy := 50, health := 50, hunger := 10, happiness := 10 }

/-- The spec's decay example pet: hunger 100, last fed at the epoch. -/
def decayFedExamplePet : Pet :=
  { basePet with hunger := 100, lastFed := 0 }

/-- C1: for every input quadruple, the status classifier agrees with the
spec's five-rule priority list (sick, then sleeping, then hungry, then
happy, otherwise active), and hunger=10, health=10, energy=10,
happiness=90 classifies as sick: the health check pre-empts the rest. -/
theorem C1_status_classifier (hunger health energy happiness : Int) :
    calculatePetStatus hunger health energy happiness =
      specStatusClassifier hunger health energy happiness ∧
    calculatePetStatus 10 10 10 90 = PetStatus.sick :=
  ⟨rfl, by decide⟩

/-- C2 counterexample: a pet whose lastFed is one hour later than `now`
gets its hunger pushed to 102 by decay — the source applies only
`Math.max(0, ...)`, no upper clamp — refuting the claim for arbitrary
timestamps. -/
theorem C2_overshoot_counterexample :
    (decayPet futureFedPet 0).hunger = 102 ∧
    ¬ (decayPet futureFedPet 0).hunger ≤ 100 := by
  decide

/-- C2 (amended): for input vitals in [0,100] and last-action timestamps
not later than now, every transition (feed, play, sleep, heal, decay)
keeps all four vitals in [0,100]; and any sequence of decay steps, with
arbitrary elapsed-time magnitudes, keeps every vital nonnegative. -/
theorem C2_clamping_invariant (p : Pet) (now : Int) (ns : List Int)
    (hv : vitalsInRange p)
    (hf : p.lastFed ≤ now) (hpl : p.lastPlayed ≤ now) (hsl : p.lastSlept ≤ now) :
    vitalsInRange (feedPet p now) ∧
    vitalsInRange (playWithPet p now) ∧
    vitalsInRange (sleepPet p now) ∧
    vitalsInRange (healPet p now) ∧
    vitalsInRange (decayPet p now) ∧
    nonnegVitals (ns.foldl decayPet p) := by
  obtain ⟨h1, h2, h3, h4, h5, h6, h7, h8⟩ := hv
  have d1 : 0 ≤ Int.fdiv ((now - p.lastFed) * 2) 3600000 :=
    Int.fdiv_nonneg (by omega) (by omega)
  have d2 : 0 ≤ Int.fdiv ((now - p.lastPlayed) * 3) 7200000 :=
    Int.fdiv_nonneg (by omega) (by omega)
  have d3 : 0 ≤ Int.fdiv (now - p.lastSlept) 3600000 :=
    Int.fdiv_nonneg (by omega) (by omega)
  refine ⟨?_, ?_, ?_, ?_, ?_, decayPet_foldl_nonneg p ns ⟨h1, h3, h5, h7⟩⟩
  · simp only [vitalsInRange, feedPet]; omega
  · simp only [vitalsInRange, playWithPet]; omega
  · simp only [vitalsInRange, sleepPet]; omega
  · simp only [vitalsInRange, healPet]; omega
  · simp only [vitalsInRange, decayPet]; omega

/-- C2 witness: the amended invariant instantiated at a concrete pet,
`now` one hour later, and a two-step decay schedule. -/
theorem C2_clamping_invariant_witness :
    (vitalsInRange basePet ∧ basePet.lastFed ≤ 3600000 ∧
      basePet.lastPlayed ≤ 3600000 ∧ basePet.lastSlept ≤ 3600000) ∧
    (vitalsInRange (feedPet basePet 3600000) ∧
     vitalsInRange (playWithPet basePet 3600000) ∧
     vitalsInRange (sleepPet basePet 3600000) ∧
     vitalsInRange (healPet basePet 3600000) ∧
     vitalsInRange (decayPet basePet 3600000) ∧
     nonnegVitals ([3600000, 360000000000].foldl decayPet basePet)) :=
  ⟨⟨by decide, by decide, by decide, by decide⟩,
    C2_clamping_invariant basePet 3600000 [3600000, 360000000000]
      (by decide) (by decide) (by decide) (by decide)⟩

/-- C3: feed sets hunger to clamp(hunger+30, 0, 100) and happiness to
clamp(happiness+10, 0, 100), adds exactly 10 experience, recomputes
level as floor(new experience / 100) + 1, classifies status from the
updated hunger and happiness with the unchanged health and energy, and
stamps lastFed := now; the spec's example pet (hunger 50, happiness 50,
experience 95) comes out as hunger 80, happiness 60, experience 105,
level 2. -/
theorem C3_feed_transition (p : Pet) (now : Int)
    (hhu : 0 ≤ p.hunger) (hha : 0 ≤ p.happiness) :
    (feedPet p now).hunger = clamp (p.hunger + 30) 0 100 ∧
    (feedPet p now).happiness = clamp (p.happiness + 10) 0 100 ∧
    (feedPet p now).experience = p.experience + 10 ∧
    (feedPet p now).level = Int.fdiv (feedPet p now).experience 100 + 1 ∧
    (feedPet p now).status = calculatePetStatus
      (feedPet p now).hunger p.health p.energy (feedPet p now).happiness ∧
    (feedPet p now).lastFed = now ∧
    (feedPet feedExamplePet 0).hunger = 80 ∧
    (feedPet feedExamplePet 0).happiness = 60 ∧
    (feedPet feedExamplePet 0).experience = 105 ∧
    (feedPet feedExamplePet 0).level = 2 := by
  refine ⟨?_, ?_, rfl, rfl, rfl, rfl, by decide, by decide, by decide, by decide⟩
  · show min 100 (p.hunger + 30) = clamp (p.hunger + 30) 0 100
    simp only [clamp]; omega
  · show min 100 (p.happiness + 10) = clamp (p.happiness + 10) 0 100
    simp only [clamp]; omega

/-- C3 witness: the feed transition instantiated at the creation-default
pet with `now` one hour after the epoch. -/
theorem C3_feed_transition_witness :
    (0 ≤ basePet.hunger ∧ 0 ≤ basePet.happiness) ∧
    ((feedPet basePet 3600000).hunger = clamp (basePet.hunger + 30) 0 100 ∧
     (feedPet basePet 3600000).happiness = clamp (basePet.happiness + 10) 0 100 ∧
     (feedPet basePet 3600000).experience = basePet.experience + 10 ∧
     (feedPet basePet 3600000).level = Int.fdiv (feedPet basePet 3600000).experience 100 + 1 ∧
     (feedPet basePet 3600000).status = calculatePetStatus
       (feedPet basePet 3600000).hunger basePet.health basePet.energy
       (feedPet basePet 3600000).happiness ∧
     (feedPet basePet 3600000).lastFed = 3600000 ∧
     (feedPet feedExamplePet 0).hunger = 80 ∧
     (feedPet feedExamplePet 0).happiness = 60 ∧
     (feedPet feedExamplePet 0).experience = 105 ∧
     (feedPet feedExamplePet 0).level = 2) :=
  ⟨⟨by decide, by decide⟩,
    C3_feed_transition basePet 3600000 (by decide) (by decide)⟩

/-- C4: sleep sets energy to clamp(energy+40, 0, 100) and health to
clamp(health+10, 0, 100), stamps lastSlept := now, and decides status by
the two-way rule energy > 80 → active, else sleeping — never through the
general classifier, so the result is always one of exactly those two
labels — while experience and level are unchanged; the spec's example
(energy 50, health 50, hungry-looking vitals) comes out with energy 90
and status active. -/
theorem C4_sleep_transition (p : Pet) (now : Int)
    (hen : 0 ≤ p.energy) (hhe : 0 ≤ p.health) :
    (sleepPet p now).energy = clamp (p.energy + 40) 0 100 ∧
    (sleepPet p now).health = clamp (p.health + 10) 0 100 ∧
    (sleepPet p now).status =
      (if (sleepPet p now).energy > 80 then PetStatus.active else PetStatus.sleeping) ∧
    ((sleepPet p now).status = PetStatus.active ∨
      (sleepPet p now).status = PetStatus.sleeping) ∧
    (sleepPet p now).experience = p.experience ∧
    (sleepPet p now).level = p.level ∧
    (sleepPet p now).lastSlept = now ∧
    (sleepPet sleepExamplePet 0).energy = 90 ∧
    (sleepPet sleepExamplePet 0).status = PetStatus.active := by
  refine ⟨?_, ?_, rfl, ?_, rfl, rfl, rfl, by decide, by decide⟩
  · show min 100 (p.energy + 40) = clamp (p.energy + 40) 0 100
    simp only [clamp]; omega
  · show min 100 (p.health + 10) = clamp (p.health + 10) 0 100
    simp only [clamp]; omega
  · rcases le_or_lt (min 100 (p.energy + 40)) 80 with h | h
    · right
      show (if min 100 (p.energy + 40) > 80 then PetStatus.active else PetStatus.sleeping) =
        PetStatus.sleeping
      rw [if_neg (by omega)]
    · left
      show (if min 100 (p.energy + 40) > 80 then PetStatus.active else PetStatus.sleeping) =
        PetStatus.active
      rw [if_pos (by omega)]

/-- C4 witness: the sleep transition instantiated at the creation-default
pet with `now` one hour after the epoch. -/
theorem C4_sleep_transition_witness :
    (0 ≤ basePet.energy ∧ 0 ≤ basePet.health) ∧
    ((sleepPet basePet 3600000).energy = clamp (basePet.energy + 40) 0 100 ∧
     (sleepPet basePet 3600000).health = clamp (basePet.health + 10) 0 100 ∧
     (sleepPet basePet 3600000).status =
       (if (sleepPet basePet 3600000).energy > 80 then PetStatus.active
        else PetStatus.sleeping) ∧
     ((sleepPet basePet 3600000).status = PetStatus.active ∨
       (sleepPet basePet 3600000).status = PetStatus.sleeping) ∧
     (sleepPet basePet 3600000).experience = basePet.experience ∧
     (sleepPet basePet 3600000).level = basePet.level ∧
     (sleepPet basePet 3600000).lastSlept = 3600000 ∧
     (sleepPet sleepExamplePet 0).energy = 90 ∧
     (sleepPet sleepExamplePet 0).status = PetStatus.active) :=
  ⟨⟨by decide, by decide⟩,
    C4_sleep_transition basePet 3600000 (by decide) (by decide)⟩

/-- C5: decay subtracts floor(hoursSinceFed × 2) from hunger,
floor(hoursSincePlayed × 1.5) from happiness and floor(hoursSinceSlept × 1)
from energy, each clamped to [0,100], where each elapsed time is measured
from that pet's own last-action timestamp to now; health is untouched and
status is recomputed by the general classifier on the three updated
values plus the unchanged health. With hunger 100 and lastFed exactly one
hour before now the result is hunger 98, and with lastFed 0.4 hours
before now hunger is unchanged. -/
theorem C5_decay_transition (p : Pet) (now : Int)
    (hhu : p.hunger ≤ 100) (hha : p.happiness ≤ 100) (hen : p.energy ≤ 100)
    (hf : p.lastFed ≤ now) (hpl : p.lastPlayed ≤ now) (hsl : p.lastSlept ≤ now) :
    (decayPet p now).hunger =
      clamp (p.hunger - Int.fdiv ((now - p.lastFed) * 2) 3600000) 0 100 ∧
    (decayPet p now).happiness =
      clamp (p.happiness - Int.fdiv ((now - p.lastPlayed) * 3) 7200000) 0 100 ∧
    (decayPet p now).energy =
      clamp (p.energy - Int.fdiv (now - p.lastSlept) 3600000) 0 100 ∧
    (decayPet p now).health = p.health ∧
    (decayPet p now).status = calculatePetStatus
      (decayPet p now).hunger p.health (decayPet p now).energy
      (decayPet p now).happiness ∧
    (decayPet decayFedExamplePet 3600000).hunger = 98 ∧
    (decayPet decayFedExamplePet 1440000).hunger = decayFedExamplePet.hunger := by
  have d1 : 0 ≤ Int.fdiv ((now - p.lastFed) * 2) 3600000 :=
    Int.fdiv_nonneg (by omega) (by omega)
  have d2 : 0 ≤ Int.fdiv ((now - p.lastPlayed) * 3) 7200000 :=
    Int.fdiv_nonneg (by omega) (by omega)
  have d3 : 0 ≤ Int.fdiv (now - p.lastSlept) 3600000 :=
    Int.fdiv_nonneg (by omega) (by omega)
  refine ⟨?_, ?_, ?_, rfl, rfl, by decide, by decide⟩
  · show max 0 (p.hunger - Int.fdiv ((now - p.lastFed) * 2) 3600000) =
      clamp (p.hunger - Int.fdiv ((now - p.lastFed) * 2) 3600000) 0 100
    simp only [clamp]; omega
  · show max 0 (p.happiness - Int.fdiv ((now - p.lastPlayed) * 3) 7200000) =
      clamp (p.happiness - Int.fdiv ((now - p.lastPlayed) * 3) 7200000) 0 100
    simp only [clamp]; omega
  · show max 0 (p.energy - Int.fdiv (now - p.lastSlept) 3600000) =
      clamp (p.energy - Int.fdiv (now - p.lastSlept) 3600000) 0 100
    simp only [clamp]; omega

/-- C5 witness: the decay transition instantiated at the decay example
pet with `now` one hour after the epoch. -/
theorem C5_decay_transition_witness :
    (decayFedExamplePet.hunger ≤ 100 ∧ decayFedExamplePet.happiness ≤ 100 ∧
     decayFedExamplePet.energy ≤ 100 ∧ decayFedExamplePet.lastFed ≤ 3600000 ∧
     decayFedExamplePet.lastPlayed ≤ 3600000 ∧ decayFedExamplePet.lastSlept ≤ 3600000) ∧
    ((decayPet decayFedExamplePet 3600000).hunger =
       clamp (decayFedExamplePet.hunger -
         Int.fdiv ((3600000 - decayFedExamplePet.lastFed) * 2) 3600000) 0 100 ∧
     (decayPet decayFedExamplePet 3600000).happiness =
       clamp (decayFedExamplePet.happiness -
         Int.fdiv ((3600000 - decayFedExamplePet.lastPlayed) * 3) 7200000) 0 100 ∧
     (decayPet decayFedExamplePet 3600000).energy =
       clamp (decayFedExamplePet.energy -
         Int.fdiv (3600000 - decayFedExamplePet.lastSlept) 3600000) 0 100 ∧
     (decayPet decayFedExamplePet 3600000).health = decayFedExamplePet.health ∧
     (decayPet decayFedExamplePet 3600000).status = calculatePetStatus
       (decayPet decayFedExamplePet 3600000).hunger decayFedExamplePet.health
       (decayPet decayFedExamplePet 3600000).energy
       (decayPet decayFedExamplePet 3600000).happiness ∧
     (decayPet decayFedExamplePet 3600000).hunger = 98 ∧
     (decayPet decayFedExamplePet 1440000).hunger = decayFedExamplePet.hunger) :=
  ⟨⟨by decide, by decide, by decide, by decide, by decide, by decide⟩,
    C5_decay_transition decayFedExamplePet 3600000
      (by decide) (by decide) (by decide) (by decide) (by decide) (by decide)⟩

/-- C6: every transition's output has level = floor(experience / 100) + 1
whenever its input does: feed and play recompute level from the new
experience, and sleep, heal and decay leave both level and experience
untouched — the engine never sets level independently of experience. -/
theorem C6_level_consistency (p : Pet) (now : Int) (h : levelInvariant p) :
    levelInvariant (feedPet p now) ∧
    levelInvariant (playWithPet p now) ∧
    levelInvariant (sleepPet p now) ∧
    levelInvariant (healPet p now) ∧
    levelInvariant (decayPet p now) :=
  ⟨rfl, rfl, h, h, h⟩

/-- C6 witness: level consistency instantiated at the creation-default
pet (level 1, experience 0) with `now` one hour after the epoch. -/
theorem C6_level_consistency_witness :
    levelInvariant basePet ∧
    (levelInvariant (feedPet basePet 3600000) ∧
     levelInvariant (playWithPet basePet 3600000) ∧
     levelInvariant (sleepPet basePet 3600000) ∧
     levelInvariant (healPet basePet 3600000) ∧
     levelInvariant (decayPet basePet 3600000)) :=
  ⟨by decide, C6_level_consistency basePet 3600000 (by decide)⟩

/-- C7 counterexample: feeding the creation-default pet twice with the
same now differs from feeding it once (experience 20 versus 10), so feed
is not idempotent with respect to a repeated call with the same now. -/
theorem C7_idempotence_counterexample :
    feedPet (feedPet basePet 0) 0 ≠ feedPet basePet 0 := by
  decide

/-- C7 (amended): the idempotence claim fails for every one of the five
transitions. Feed and play are never idempotent under a repeated call
with the same now — every call adds the experience reward (10 for feed,
15 for play) once more — and heal, sleep and decay each have concrete
inputs on which a repeated call with the same now changes the record
again, because the unsaturated increment or decrement is re-applied
(heal from health 50: 80 then 100; sleep from energy 50: 90 then 100;
decay with one elapsed hour: hunger 98 then 96). -/
theorem C7_not_idempotent (p : Pet) (now : Int) :
    feedPet (feedPet p now) now ≠ feedPet p now ∧
    playWithPet (playWithPet p now) now ≠ playWithPet p now ∧
    healPet (healPet sleepExamplePet 0) 0 ≠ healPet sleepExamplePet 0 ∧
    sleepPet (sleepPet sleepExamplePet 0) 0 ≠ sleepPet sleepExamplePet 0 ∧
    decayPet (decayPet decayFedExamplePet 3600000) 3600000 ≠
      decayPet decayFedExamplePet 3600000 := by
  refine ⟨fun h => ?_, fun h => ?_, by decide, by decide, by decide⟩
  · have he : p.experience + 10 + 10 = p.experience + 10 := congrArg Pet.experience h
    omega
  · have he : p.experience + 15 + 15 = p.experience + 15 := congrArg Pet.experience h
    omega

/-- A soft-deleted pet (is_active false) belonging to another user. -/
def inactivePet : Pet :=
  { basePet with id := "p2", userId := "u9", is_active := false }

/-- An active pet of user u0 used to exercise the per-user listing. -/
def activeListedPet : Pet :=
  { basePet with id := "p3" }

/-- A two-pet store holding one soft-deleted and one active pet. -/
def petStore : List Pet := [inactivePet, activeListedPet]

/-- C8: heal changes only health and status — every other field (name,
the other three vitals, experience, level, the three action timestamps,
avatar, battles, id, owner, type, active flag) keeps its input value;
decay changes only hunger, happiness, energy and status — every other
field, health and the three action timestamps included, keeps its input
value; and no transition touches battlesWon, battlesLost, id, ownerId
(userId), type or the active flag. -/
theorem C8_frame_conditions (p : Pet) (now : Int) :
    ((healPet p now).id = p.id ∧
     (healPet p now).name = p.name ∧
     (healPet p now).type = p.type ∧
     (healPet p now).userId = p.userId ∧
     (healPet p now).level = p.level ∧
     (healPet p now).experience = p.experience ∧
     (healPet p now).hunger = p.hunger ∧
     (healPet p now).happiness = p.happiness ∧
     (healPet p now).energy = p.energy ∧
     (healPet p now).lastFed = p.lastFed ∧
     (healPet p now).lastPlayed = p.lastPlayed ∧
     (healPet p now).lastSlept = p.lastSlept ∧
     (healPet p now).avatar = p.avatar ∧
     (healPet p now).battlesWon = p.battlesWon ∧
     (healPet p now).battlesLost = p.battlesLost ∧
     (healPet p now).is_active = p.is_active) ∧
    ((decayPet p now).id = p.id ∧
     (decayPet p now).name = p.name ∧
     (decayPet p now).type = p.type ∧
     (decayPet p now).userId = p.userId ∧
     (decayPet p now).level = p.level ∧
     (decayPet p now).experience = p.experience ∧
     (decayPet p now).health = p.health ∧
     (decayPet p now).lastFed = p.lastFed ∧
     (decayPet p now).lastPlayed = p.lastPlayed ∧
     (decayPet p now).lastSlept = p.lastSlept ∧
     (decayPet p now).avatar = p.avatar ∧
     (decayPet p now).battlesWon = p.battlesWon ∧
     (decayPet p now).battlesLost = p.battlesLost ∧
     (decayPet p now).is_active = p.is_active) ∧
    ((feedPet p now).battlesWon = p.battlesWon ∧
     (feedPet p now).battlesLost = p.battlesLost ∧
     (feedPet p now).id = p.id ∧
     (feedPet p now).userId = p.userId ∧
     (feedPet p now).type = p.type ∧
     (feedPet p now).is_active = p.is_active) ∧
    ((playWithPet p now).battlesWon = p.battlesWon ∧
     (playWithPet p now).battlesLost = p.battlesLost ∧
     (playWithPet p now).id = p.id ∧
     (playWithPet p now).userId = p.userId ∧
     (playWithPet p now).type = p.type ∧
     (playWithPet p now).is_active = p.is_active) ∧
    ((sleepPet p now).battlesWon = p.battlesWon ∧
     (sleepPet p now).battlesLost = p.battlesLost ∧
     (sleepPet p now).id = p.id ∧
     (sleepPet p now).userId = p.userId ∧
     (sleepPet p now).type = p.type ∧
     (sleepPet p now).is_active = p.is_active) ∧
    ((healPet p now).battlesWon = p.battlesWon ∧
     (healPet p now).battlesLost = p.battlesLost ∧
     (healPet p now).id = p.id ∧
     (healPet p now).userId = p.userId ∧
     (healPet p now).type = p.type ∧
     (healPet p now).is_active = p.is_active) ∧
    ((decayPet p now).battlesWon = p.battlesWon ∧
     (decayPet p now).battlesLost = p.battlesLost ∧
     (decayPet p now).id = p.id ∧
     (decayPet p now).userId = p.userId ∧
     (decayPet p now).type = p.type ∧
     (decayPet p now).is_active = p.is_active) := by
  repeat' apply And.intro
  all_goals rfl

/-- C9: the PetType enum of the schema declares only fish and cat, so
the pet-types query returns exactly ["fish", "cat"] and creation
validation rejects dog, bird and rabbit — the type domain is not the
five-element set {cat, dog, bird, fish, rabbit} the spec states. -/
theorem C9_pet_type_domain :
    getPetTypes = ["fish", "cat"] ∧
    isValidPetType "fish" = true ∧
    isValidPetType "cat" = true ∧
    isValidPetType "dog" = false ∧
    isValidPetType "bird" = false ∧
    isValidPetType "rabbit" = false ∧
    getPetTypes ≠ ["cat", "dog", "bird", "fish", "rabbit"] := by
  decide

/-- C10: the batch decay maps the per-pet decay over the unfiltered
findAll, so every stored pet — soft-deleted ones included — is decayed,
while the per-user listing (findByUserId) keeps only pets whose active
flag is true. -/
theorem C10_batch_decay_includes_inactive (store : List Pet) (now : Int)
    (p q : Pet) (uid : String)
    (hp : p ∈ store) (hq : q ∈ findByUserId store uid) :
    updatePetStatsOverTime store now = store.map (fun r => decayPet r now) ∧
    decayPet p now ∈ updatePetStatsOverTime store now ∧
    q.is_active = true := by
  refine ⟨rfl, ?_, ?_⟩
  · exact List.mem_map.mpr ⟨p, hp, rfl⟩
  · have h2 := (List.mem_filter.mp hq).2
    simp only [Bool.and_eq_true, beq_iff_eq] at h2
    exact h2.2

/-- C10 witness: a two-pet store where the soft-deleted pet is decayed by
the batch update while the per-user listing returns only the active pet. -/
theorem C10_batch_decay_includes_inactive_witness :
    (inactivePet ∈ petStore ∧ activeListedPet ∈ findByUserId petStore "u0") ∧
    (updatePetStatsOverTime petStore 3600000 =
       petStore.map (fun r => decayPet r 3600000) ∧
     decayPet inactivePet 3600000 ∈ updatePetStatsOverTime petStore 3600000 ∧
     activeListedPet.is_active = true) :=
  ⟨⟨by decide, by decide⟩,
    C10_batch_decay_includes_inactive petStore 3600000 inactivePet activeListedPet "u0"
      (by decide) (by decide)⟩
